import Mathlib

/-!
Verification development for the Deal QuickCheck screening calculator
(src/app/page.tsx). The financial core of the page is embedded shallowly:

* all exact arithmetic is carried out over `ℚ` (the source performs a fixed
  sequence of field operations on its inputs);
* the four ratio metrics that the source guards with explicit sentinels
  (cap rate, cash-on-cash, DSCR, break-even rent) are modelled by `JsNum`,
  a rational extended with the `Infinity` and `NaN` sentinels the source
  produces, together with comparison operators that follow IEEE semantics
  (every comparison involving `NaN` is false);
* `Math.round` is `jsRound` (floor of `x + 1/2`), and `clamp` is the
  `Math.min (Math.max ...)` combination of the source;
* the locals of the `result` memo are collected in `coreOf`, and every
  derived metric is a function of that core, exactly as in the source.
-/

/-- A JavaScript number as it occurs in the guarded ratio computations of the
page: a finite rational, positive infinity, or NaN. -/
inductive JsNum where
  | nan : JsNum
  | inf : JsNum
  | fin : ℚ → JsNum
deriving DecidableEq

/-- JavaScript `<` on guarded values: any comparison with NaN is false,
infinity is not less than anything, a finite value is less than infinity. -/
def JsNum.ltB : JsNum → JsNum → Bool
  | JsNum.nan, _ => false
  | _, JsNum.nan => false
  | JsNum.inf, _ => false
  | JsNum.fin _, JsNum.inf => true
  | JsNum.fin a, JsNum.fin b => decide (a < b)

/-- JavaScript `>=` on guarded values: any comparison with NaN is false,
infinity is greater than or equal to anything non-NaN. -/
def JsNum.geB : JsNum → JsNum → Bool
  | JsNum.nan, _ => false
  | _, JsNum.nan => false
  | JsNum.inf, _ => true
  | JsNum.fin _, JsNum.inf => false
  | JsNum.fin a, JsNum.fin b => decide (b ≤ a)

/-- JavaScript `>`: `a > b` holds exactly when `b < a`. -/
def JsNum.gtB (x y : JsNum) : Bool := JsNum.ltB y x

/-- `Math.round`: floor of the argument plus one half. -/
def jsRound (q : ℚ) : ℤ := Int.floor (q + 1/2)

/-- The clamp helper of the page: `clamp(n, min, max) = Math.min(max, Math.max(min, n))`. -/
def clamp (n mn mx : ℚ) : ℚ := min mx (max mn n)

/-- `monthlyMortgagePayment(principal, annualRatePct, years)` from the page. -/
def monthlyMortgagePayment (principal annualRatePct years : ℚ) : ℚ :=
  let r := annualRatePct / 100 / 12
  let n : ℤ := max 1 (jsRound (years * 12))
  if principal ≤ 0 then 0
  else if r ≤ 0 then principal / (n : ℚ)
  else principal * (r * (1 + r) ^ n.toNat) / ((1 + r) ^ n.toNat - 1)

/-- The arguments handed to `scoreDecision` by the metric computation. -/
structure DecisionArgs where
  netCashFlow : JsNum
  dscr : JsNum
  cashOnCash : JsNum
  breakEvenRent : JsNum
  effectiveIncome : JsNum
  grossIncome : JsNum
  mortgagePI : JsNum
deriving DecidableEq

/-- A blocking reason pushed by `scoreDecision`, carrying the numeric payload
that the source interpolates into the message string. -/
inductive Reason where
  | cashFlowNegative : JsNum → Reason
  | dscrBelowMin : JsNum → Reason
deriving DecidableEq

/-- A non-blocking warning pushed by `scoreDecision`. -/
inductive Warning where
  | cashOnCashUnderMin : JsNum → Warning
  | breakEvenAboveGross : Warning
deriving DecidableEq

/-- The verdict record returned by `scoreDecision`. -/
structure Verdict where
  isGo : Bool
  reasons : List Reason
  warnings : List Warning
  primarySignals : List (String × JsNum)
  nextStep : String
  dscrMin : ℚ
  cocMin : ℚ
deriving DecidableEq

/-- `scoreDecision` from the page: fixed thresholds 1.20 and 8 percent,
blocking reasons in source order, warnings in source order, and
`isGo = netCashFlow >= 0 && dscr >= dscrMin`. -/
def scoreDecision (a : DecisionArgs) : Verdict :=
  let dscrMin : ℚ := 6/5
  let cocMin : ℚ := 2/25
  let reasons :=
    (if JsNum.ltB a.netCashFlow (JsNum.fin 0) then [Reason.cashFlowNegative a.netCashFlow] else [])
      ++ (if JsNum.ltB a.dscr (JsNum.fin dscrMin) then [Reason.dscrBelowMin a.dscr] else [])
  let warnings :=
    (if JsNum.ltB a.cashOnCash (JsNum.fin cocMin) then [Warning.cashOnCashUnderMin a.cashOnCash] else [])
      ++ (if JsNum.gtB a.breakEvenRent a.grossIncome then [Warning.breakEvenAboveGross] else [])
  let isGo := JsNum.geB a.netCashFlow (JsNum.fin 0) && JsNum.geB a.dscr (JsNum.fin dscrMin)
  { isGo := isGo
    reasons := reasons
    warnings := warnings
    primarySignals := [("Cash flow (monthly)", a.netCashFlow), ("DSCR", a.dscr)]
    nextStep :=
      if isGo then "Next: verify rent comps + taxes/insurance + vacancy; then do full underwriting."
      else "Next: adjust price/down payment/rent/expenses until cash flow and DSCR clear the threshold."
    dscrMin := dscrMin
    cocMin := cocMin }

/-- The numeric input state of the page after the permissive `toNum` parse:
one rational per field, plus the Section 8 mode flag. -/
structure Inputs where
  section8Mode : Bool
  purchasePrice : ℚ
  downPct : ℚ
  ratePct : ℚ
  termYears : ℚ
  closingCosts : ℚ
  monthlyRent : ℚ
  tenantPortionMonthly : ℚ
  hapMonthly : ℚ
  otherIncome : ℚ
  taxesMonthly : ℚ
  insuranceMonthly : ℚ
  hoaMonthly : ℚ
  utilitiesMonthly : ℚ
  vacancyPct : ℚ
  repairsPct : ℚ
  capexPct : ℚ
  mgmtPct : ℚ
  inspectionReserveMonthly : ℚ
deriving DecidableEq

/-- The `computedRent` memo: in Section 8 mode the sum of the clamped tenant
portion and HAP, otherwise the clamped standard monthly rent. -/
def computedRent (i : Inputs) : ℚ :=
  if i.section8Mode then max 0 i.tenantPortionMonthly + max 0 i.hapMonthly
  else max 0 i.monthlyRent

/-- The sanitized locals computed at the top of the `result` memo. -/
structure Core where
  price : ℚ
  down : ℚ
  rate : ℚ
  years : ℚ
  close : ℚ
  rent : ℚ
  other : ℚ
  taxes : ℚ
  ins : ℚ
  hoa : ℚ
  utils : ℚ
  vacancy : ℚ
  repairs : ℚ
  capex : ℚ
  mgmt : ℚ
  s8Reserve : ℚ
deriving DecidableEq

/-- The sanitization step of the `result` memo: clamps and lower bounds applied
to every raw input before any arithmetic. -/
def coreOf (i : Inputs) : Core where
  price := max 0 i.purchasePrice
  down := clamp i.downPct 0 100 / 100
  rate := clamp i.ratePct 0 100
  years := max 1 ((jsRound i.termYears : ℤ) : ℚ)
  close := max 0 i.closingCosts
  rent := max 0 (computedRent i)
  other := max 0 i.otherIncome
  taxes := max 0 i.taxesMonthly
  ins := max 0 i.insuranceMonthly
  hoa := max 0 i.hoaMonthly
  utils := max 0 i.utilitiesMonthly
  vacancy := clamp i.vacancyPct 0 80 / 100
  repairs := clamp i.repairsPct 0 80 / 100
  capex := clamp i.capexPct 0 80 / 100
  mgmt := clamp i.mgmtPct 0 30 / 100
  s8Reserve := if i.section8Mode then max 0 i.inspectionReserveMonthly else 0

def downPaymentOf (c : Core) : ℚ := c.price * c.down

def loanOf (c : Core) : ℚ := max 0 (c.price - downPaymentOf c)

def mortgagePIOf (c : Core) : ℚ := monthlyMortgagePayment (loanOf c) c.rate c.years

def grossIncomeOf (c : Core) : ℚ := c.rent + c.other

def effectiveRentOf (c : Core) : ℚ := c.rent * (1 - c.vacancy)

def effectiveIncomeOf (c : Core) : ℚ := effectiveRentOf c + c.other

def percentCostsOf (c : Core) : ℚ := c.rent * (c.repairs + c.capex + c.mgmt)

def fixedCostsNoDebtOf (c : Core) : ℚ := c.taxes + c.ins + c.hoa + c.utils + c.s8Reserve

def totalExpensesOf (c : Core) : ℚ := fixedCostsNoDebtOf c + percentCostsOf c + mortgagePIOf c

def noiMonthlyOf (c : Core) : ℚ := effectiveIncomeOf c - (fixedCostsNoDebtOf c + percentCostsOf c)

def netCashFlowOf (c : Core) : ℚ := noiMonthlyOf c - mortgagePIOf c

def capRateOf (c : Core) : JsNum :=
  if 0 < c.price then JsNum.fin (noiMonthlyOf c * 12 / c.price) else JsNum.nan

def cashInvestedOf (c : Core) : ℚ := downPaymentOf c + c.close

def cashOnCashOf (c : Core) : JsNum :=
  if 0 < cashInvestedOf c then JsNum.fin (netCashFlowOf c * 12 / cashInvestedOf c) else JsNum.nan

def dscrOf (c : Core) : JsNum :=
  if 0 < mortgagePIOf c then JsNum.fin (noiMonthlyOf c / mortgagePIOf c)
  else if 0 < noiMonthlyOf c then JsNum.inf else JsNum.nan

def coeffOfCore (c : Core) : ℚ := (1 - c.vacancy) - (c.repairs + c.capex + c.mgmt)

def breakEvenRentOf (c : Core) : JsNum :=
  if coeffOfCore c ≠ 0 then
    JsNum.fin ((fixedCostsNoDebtOf c + mortgagePIOf c - c.other) / coeffOfCore c)
  else JsNum.inf

/-- The record of derived metrics returned by the `result` memo. -/
structure Metrics where
  price : ℚ
  loan : ℚ
  downPayment : ℚ
  cashInvested : ℚ
  mortgagePI : ℚ
  grossIncome : ℚ
  effectiveIncome : ℚ
  fixedCostsNoDebt : ℚ
  percentCosts : ℚ
  totalExpenses : ℚ
  noiMonthly : ℚ
  netCashFlow : ℚ
  capRate : JsNum
  cashOnCash : JsNum
  dscr : JsNum
  breakEvenRent : JsNum
  decision : Verdict
deriving DecidableEq

/-- The body of the `result` memo after sanitization. -/
def computeFromCore (c : Core) : Metrics where
  price := c.price
  loan := loanOf c
  downPayment := downPaymentOf c
  cashInvested := cashInvestedOf c
  mortgagePI := mortgagePIOf c
  grossIncome := grossIncomeOf c
  effectiveIncome := effectiveIncomeOf c
  fixedCostsNoDebt := fixedCostsNoDebtOf c
  percentCosts := percentCostsOf c
  totalExpenses := totalExpensesOf c
  noiMonthly := noiMonthlyOf c
  netCashFlow := netCashFlowOf c
  capRate := capRateOf c
  cashOnCash := cashOnCashOf c
  dscr := dscrOf c
  breakEvenRent := breakEvenRentOf c
  decision := scoreDecision
    { netCashFlow := JsNum.fin (netCashFlowOf c)
      dscr := dscrOf c
      cashOnCash := cashOnCashOf c
      breakEvenRent := breakEvenRentOf c
      effectiveIncome := JsNum.fin (effectiveIncomeOf c)
      grossIncome := JsNum.fin (grossIncomeOf c)
      mortgagePI := JsNum.fin (mortgagePIOf c) }

/-- The full metric engine: the `result` memo as a function of the parsed
input state. -/
def computeMetrics (i : Inputs) : Metrics := computeFromCore (coreOf i)

/-- The rent-sensitivity coefficient of the break-even solve, as a function of
the raw inputs. -/
def coeffOf (i : Inputs) : ℚ := coeffOfCore (coreOf i)

/-- Replacing the standard monthly rent input and selecting Standard mode,
leaving every other input untouched: the re-run used by the break-even
identity. -/
def withRent (i : Inputs) (rent : ℚ) : Inputs :=
  { i with section8Mode := false, monthlyRent := rent }

/-- Switching a run to Standard mode with the monthly rent set to the sum of
the tenant portion and the housing assistance payment, leaving every other
input untouched. -/
def toStandard (i : Inputs) : Inputs :=
  { i with section8Mode := false,
           monthlyRent := i.tenantPortionMonthly + i.hapMonthly }

/-- Clamping the five percentage inputs named by the data model to their
documented ranges, leaving every other input untouched. -/
def clampPercentInputs (i : Inputs) : Inputs :=
  { i with downPct := clamp i.downPct 0 100,
           vacancyPct := clamp i.vacancyPct 0 80,
           repairsPct := clamp i.repairsPct 0 80,
           capexPct := clamp i.capexPct 0 80,
           mgmtPct := clamp i.mgmtPct 0 30 }

/-- The break-even rent value as a rational, defined when the coefficient is
nonzero. -/
def beValOf (i : Inputs) : ℚ :=
  (fixedCostsNoDebtOf (coreOf i) + mortgagePIOf (coreOf i) - (coreOf i).other) / coeffOf i

/-- The all-zero Standard-mode input state. -/
def zeroInputs : Inputs where
  section8Mode := false
  purchasePrice := 0
  downPct := 0
  ratePct := 0
  termYears := 0
  closingCosts := 0
  monthlyRent := 0
  tenantPortionMonthly := 0
  hapMonthly := 0
  otherIncome := 0
  taxesMonthly := 0
  insuranceMonthly := 0
  hoaMonthly := 0
  utilitiesMonthly := 0
  vacancyPct := 0
  repairsPct := 0
  capexPct := 0
  mgmtPct := 0
  inspectionReserveMonthly := 0

/-- A Standard-mode input with rent 4000, vacancy 5, repairs 5, capex 5 and
management 8 percent, everything else zero. -/
def cex3 : Inputs :=
  { zeroInputs with monthlyRent := 4000, vacancyPct := 5, repairsPct := 5,
                    capexPct := 5, mgmtPct := 8 }

/-- A Standard-mode input whose only nonzero field is other income 100, so the
break-even rent is negative. -/
def cexNeg : Inputs := { zeroInputs with otherIncome := 100 }

/-- A Section 8 input whose only nonzero field is the inspection reserve 120. -/
def cexS8 : Inputs :=
  { zeroInputs with section8Mode := true, inspectionReserveMonthly := 120 }

/-- A Section 8 input with a negative tenant portion and a positive HAP. -/
def cex8 : Inputs :=
  { zeroInputs with section8Mode := true, tenantPortionMonthly := -5, hapMonthly := 10 }

/-- The Section 8 input of the spec scenario: tenant portion 800, HAP 3200,
inspection reserve 0. -/
def w8 : Inputs :=
  { zeroInputs with section8Mode := true, tenantPortionMonthly := 800, hapMonthly := 3200 }

/-- Clamping is idempotent on a nonempty interval. -/
theorem clamp_clamp (x a b : ℚ) (h : a ≤ b) : clamp (clamp x a b) a b = clamp x a b := by
  unfold clamp
  rw [max_eq_right (le_min h (le_max_left a x)),
    min_eq_right (min_le_left b (max a x))]

/-- A value clamped to `[0, b]` lies in `[0, b]`. -/
theorem clamp_mem (x b : ℚ) (hb : 0 ≤ b) : 0 ≤ clamp x 0 b ∧ clamp x 0 b ≤ b := by
  unfold clamp
  exact ⟨le_min hb (le_max_left 0 x), min_le_left b _⟩

/-- Claim C4: the monthly debt service uses `n = max(1, round(Y * 12))` periods
and monthly rate `r = (R/100)/12`; a nonpositive principal yields payment 0, a
nonpositive rate yields the straight-line payment `P / n` with `n` positive
(no division by zero), and a positive rate yields the annuity formula
`P * r * (1+r)^n / ((1+r)^n - 1)` whose denominator is nonzero. -/
theorem monthlyMortgagePayment_spec (P R Y : ℚ) :
    1 ≤ max 1 (jsRound (Y * 12)) ∧
    (P ≤ 0 → monthlyMortgagePayment P R Y = 0) ∧
    (¬ P ≤ 0 → R / 100 / 12 ≤ 0 →
      monthlyMortgagePayment P R Y = P / ((max 1 (jsRound (Y * 12)) : ℤ) : ℚ) ∧
      (0 : ℚ) < ((max 1 (jsRound (Y * 12)) : ℤ) : ℚ)) ∧
    (¬ P ≤ 0 → 0 < R / 100 / 12 →
      (1 + R / 100 / 12) ^ (max 1 (jsRound (Y * 12))).toNat - 1 ≠ 0 ∧
      monthlyMortgagePayment P R Y =
        P * (R / 100 / 12 * (1 + R / 100 / 12) ^ (max 1 (jsRound (Y * 12))).toNat) /
          ((1 + R / 100 / 12) ^ (max 1 (jsRound (Y * 12))).toNat - 1)) := by
  have hn1 : (1 : ℤ) ≤ max 1 (jsRound (Y * 12)) := le_max_left 1 _
  have hn0 : (0 : ℚ) < ((max 1 (jsRound (Y * 12)) : ℤ) : ℚ) := by
    exact_mod_cast lt_of_lt_of_le Int.zero_lt_one hn1
  refine ⟨hn1, ?_, ?_, ?_⟩
  · intro hP
    simp [monthlyMortgagePayment, hP]
  · intro hP hr
    exact ⟨by simp [monthlyMortgagePayment, hP, hr], hn0⟩
  · intro hP hr
    have h1r : (1 : ℚ) < 1 + R / 100 / 12 := by linarith
    have hnt : (max 1 (jsRound (Y * 12))).toNat ≠ 0 := by omega
    have hpow : (1 : ℚ) < (1 + R / 100 / 12) ^ (max 1 (jsRound (Y * 12))).toNat :=
      one_lt_pow₀ h1r hnt
    refine ⟨by linarith, ?_⟩
    simp [monthlyMortgagePayment, hP, not_le.mpr hr]

/-- Witness for C4 at principal 100, rate 12 percent, one year: the positive
rate branch applies, its denominator is nonzero, and the payment matches the
annuity formula. -/
theorem monthlyMortgagePayment_spec_witness :
    (1 + (12 : ℚ) / 100 / 12) ^ (max 1 (jsRound ((1 : ℚ) * 12))).toNat - 1 ≠ 0 ∧
    monthlyMortgagePayment 100 12 1 =
      100 * ((12 : ℚ) / 100 / 12 * (1 + (12 : ℚ) / 100 / 12) ^ (max 1 (jsRound ((1 : ℚ) * 12))).toNat) /
        ((1 + (12 : ℚ) / 100 / 12) ^ (max 1 (jsRound ((1 : ℚ) * 12))).toNat - 1) :=
  (monthlyMortgagePayment_spec 100 12 1).2.2.2 (by norm_num) (by norm_num)

/-- Claim C1: for every argument record, the verdict field `isGo` equals the
conjunction of the JavaScript comparisons `netCashFlow >= 0` and
`dscr >= 1.20`; on finite values this is the plain conjunction of the two
inequalities, and at the boundary case of cash flow exactly 0 and DSCR exactly
1.20 the verdict is GO. -/
theorem scoreDecision_isGo_iff :
    (∀ a : DecisionArgs,
      (scoreDecision a).isGo
        = (JsNum.geB a.netCashFlow (JsNum.fin 0) && JsNum.geB a.dscr (JsNum.fin (6/5)))) ∧
    (∀ x d c b e g m : ℚ,
      ((scoreDecision ⟨JsNum.fin x, JsNum.fin d, JsNum.fin c, JsNum.fin b, JsNum.fin e,
          JsNum.fin g, JsNum.fin m⟩).isGo = true ↔ 0 ≤ x ∧ 6/5 ≤ d)) ∧
    (scoreDecision ⟨JsNum.fin 0, JsNum.fin (6/5), JsNum.fin 0, JsNum.fin 0, JsNum.fin 0,
        JsNum.fin 0, JsNum.fin 0⟩).isGo = true := by
  refine ⟨fun a => rfl, fun x d c b e g m => ?_, ?_⟩
  · simp [scoreDecision, JsNum.geB, and_comm]
  · simp [scoreDecision, JsNum.geB]

/-- Witness for C1: a GO verdict at cash flow 1 and DSCR 2 via the finite-value
equivalence. -/
theorem scoreDecision_isGo_iff_witness :
    (scoreDecision ⟨JsNum.fin 1, JsNum.fin 2, JsNum.fin 0, JsNum.fin 0, JsNum.fin 0,
        JsNum.fin 0, JsNum.fin 0⟩).isGo = true :=
  (scoreDecision_isGo_iff.2.1 1 2 0 0 0 0 0).mpr (by norm_num)

/-- Counterexample to C2 as stated: at the all-zero input the metric engine
yields DSCR = NaN and net cash flow 0; the decision engine adds no blocking
reason, yet the verdict is NO-GO, so `isGo` is not equivalent to the absence
of blocking reasons and an undefined DSCR does block GO. -/
theorem nan_dscr_blocks_go_cex :
    (computeMetrics zeroInputs).dscr = JsNum.nan ∧
    (computeMetrics zeroInputs).netCashFlow = 0 ∧
    (computeMetrics zeroInputs).decision.reasons = [] ∧
    (computeMetrics zeroInputs).decision.isGo = false := by
  refine ⟨?_, ?_, ?_, ?_⟩ <;>
    simp [computeMetrics, computeFromCore, scoreDecision, dscrOf, mortgagePIOf, loanOf,
      downPaymentOf, noiMonthlyOf, effectiveIncomeOf, effectiveRentOf, percentCostsOf,
      fixedCostsNoDebtOf, netCashFlowOf, monthlyMortgagePayment, coreOf, computedRent,
      clamp, jsRound, zeroInputs, JsNum.geB, JsNum.ltB]

/-- Claim C2 (amended): a GO verdict implies that the blocking reasons are
empty; when neither cash flow nor DSCR is NaN, the verdict is GO exactly when
the blocking reasons are empty; when DSCR is NaN, the comparison DSCR < 1.20
evaluates false so no DSCR blocking reason is added, but DSCR >= 1.20 also
evaluates false, so the verdict is NO-GO regardless of the cash flow. -/
theorem verdict_reasons_consistency (a : DecisionArgs) :
    ((scoreDecision a).isGo = true → (scoreDecision a).reasons = []) ∧
    (a.netCashFlow ≠ JsNum.nan → a.dscr ≠ JsNum.nan →
      ((scoreDecision a).isGo = true ↔ (scoreDecision a).reasons = [])) ∧
    (a.dscr = JsNum.nan →
      (scoreDecision a).isGo = false ∧
      ∀ d, Reason.dscrBelowMin d ∉ (scoreDecision a).reasons) := by
  obtain ⟨ncf, dscr, coc, ber, eff, gross, pi⟩ := a
  cases ncf <;> cases dscr <;>
    simp [scoreDecision, JsNum.ltB, JsNum.geB, not_lt]

/-- Witness for C2: at finite cash flow 5 and DSCR 2 neither value is NaN, and
the GO verdict coincides with the absence of blocking reasons. -/
theorem verdict_reasons_consistency_witness :
    (scoreDecision ⟨JsNum.fin 5, JsNum.fin 2, JsNum.fin 0, JsNum.fin 0, JsNum.fin 0,
        JsNum.fin 0, JsNum.fin 0⟩).isGo = true ↔
    (scoreDecision ⟨JsNum.fin 5, JsNum.fin 2, JsNum.fin 0, JsNum.fin 0, JsNum.fin 0,
        JsNum.fin 0, JsNum.fin 0⟩).reasons = [] :=
  (verdict_reasons_consistency _).2.1 (by simp) (by simp)

/-- Claim C7: DSCR is NOI divided by the debt service when the debt service is
positive; otherwise it is the infinity sentinel when NOI is positive and the
NaN sentinel when it is not, with no failure path. -/
theorem dscr_spec (i : Inputs) :
    (0 < (computeMetrics i).mortgagePI →
      (computeMetrics i).dscr
        = JsNum.fin ((computeMetrics i).noiMonthly / (computeMetrics i).mortgagePI)) ∧
    (¬ 0 < (computeMetrics i).mortgagePI → 0 < (computeMetrics i).noiMonthly →
      (computeMetrics i).dscr = JsNum.inf) ∧
    (¬ 0 < (computeMetrics i).mortgagePI → ¬ 0 < (computeMetrics i).noiMonthly →
      (computeMetrics i).dscr = JsNum.nan) := by
  simp only [computeMetrics, computeFromCore, dscrOf]
  refine ⟨fun h => if_pos h, fun h h2 => ?_, fun h h2 => ?_⟩
  · rw [if_neg h, if_pos h2]
  · rw [if_neg h, if_neg h2]

/-- Witness for C7 at the concrete input with rent 4000 and price 0: the debt
service is 0 and NOI is positive, so DSCR is the infinity sentinel. -/
theorem dscr_spec_witness : (computeMetrics cex3).dscr = JsNum.inf := by
  have hpi : (computeMetrics cex3).mortgagePI = 0 := by
    simp [computeMetrics, computeFromCore, mortgagePIOf, loanOf, downPaymentOf,
      monthlyMortgagePayment, coreOf, computedRent, clamp, cex3, zeroInputs]
  have hnoi : (computeMetrics cex3).noiMonthly = 3080 := by
    simp [computeMetrics, computeFromCore, noiMonthlyOf, effectiveIncomeOf, effectiveRentOf,
      percentCostsOf, fixedCostsNoDebtOf, coreOf, computedRent, clamp, cex3, zeroInputs]
    norm_num [max_def, min_def]
  exact (dscr_spec cex3).2.1 (by rw [hpi]; norm_num) (by rw [hnoi]; norm_num)

/-- Claim C5: with `coeff = (1 - vacancy) - (repairs + capex + mgmt)`, a
nonzero coefficient gives the finite break-even rent
`(fixedCosts + debtService - otherIncome) / coeff`, which solves the linear
equation `x * coeff = fixedCosts + debtService - otherIncome`; a zero
coefficient gives the infinity sentinel, with no failure path. -/
theorem breakEvenRent_spec (i : Inputs) :
    (coeffOf i ≠ 0 →
      (computeMetrics i).breakEvenRent
        = JsNum.fin (((computeMetrics i).fixedCostsNoDebt + (computeMetrics i).mortgagePI
            - (coreOf i).other) / coeffOf i) ∧
      ((computeMetrics i).fixedCostsNoDebt + (computeMetrics i).mortgagePI - (coreOf i).other)
          / coeffOf i * coeffOf i
        = (computeMetrics i).fixedCostsNoDebt + (computeMetrics i).mortgagePI - (coreOf i).other) ∧
    (coeffOf i = 0 → (computeMetrics i).breakEvenRent = JsNum.inf) := by
  constructor
  · intro h
    refine ⟨?_, div_mul_cancel₀ _ h⟩
    rw [coeffOf] at h
    simp [computeMetrics, computeFromCore, breakEvenRentOf, coeffOf, h]
  · intro h
    rw [coeffOf] at h
    simp [computeMetrics, computeFromCore, breakEvenRentOf, h]

/-- Witness for C5 at the all-zero input: the coefficient is 1, so the
break-even rent is the finite value 0. -/
theorem breakEvenRent_spec_witness :
    (computeMetrics zeroInputs).breakEvenRent
      = JsNum.fin (((computeMetrics zeroInputs).fixedCostsNoDebt
          + (computeMetrics zeroInputs).mortgagePI - (coreOf zeroInputs).other)
            / coeffOf zeroInputs) :=
  ((breakEvenRent_spec zeroInputs).1 (by
    simp [coeffOf, coeffOfCore, coreOf, clamp, zeroInputs])).1

/-- Counterexample to C3 as stated: at rent 4000, vacancy 5 percent and cost
fractions summing to 18 percent, the variable costs are 720, the gross-rent
value, not 684, the effective-rent value (the effective income equals the
effective rent here since other income is 0). -/
theorem percentCosts_effective_cex :
    (computeMetrics cex3).percentCosts = 720 ∧
    (computeMetrics cex3).effectiveIncome * (18/100) = 684 ∧
    (computeMetrics cex3).percentCosts ≠ (computeMetrics cex3).effectiveIncome * (18/100) := by
  refine ⟨?_, ?_, ?_⟩ <;>
  · simp [computeMetrics, computeFromCore, percentCostsOf, effectiveIncomeOf, effectiveRentOf,
      coreOf, computedRent, clamp, cex3, zeroInputs]
    norm_num [max_def, min_def]

/-- Claim C3 (amended): the variable costs equal the rent used in calculations
(the gross, pre-vacancy rent) times the sum of the clamped repairs, capex and
management fractions; they are not computed on the effective
(vacancy-reduced) rent. -/
theorem percentCosts_on_gross_rent (i : Inputs) :
    (computeMetrics i).percentCosts
      = computedRent i * (clamp i.repairsPct 0 80 / 100 + clamp i.capexPct 0 80 / 100
          + clamp i.mgmtPct 0 30 / 100) := by
  have h : max 0 (computedRent i) = computedRent i := by
    apply max_eq_right
    unfold computedRent
    split
    · exact add_nonneg (le_max_left 0 _) (le_max_left 0 _)
    · exact le_max_left 0 _
  simp [computeMetrics, computeFromCore, percentCostsOf, coreOf, h]

/-- Counterexample to C6 as stated: with only other income 100 the coefficient
is 1 and the break-even rent is -100, but the re-run clamps the rent to 0 and
yields cash flow 100; with only a Section 8 inspection reserve of 120 the
break-even rent is 120, but the Standard-mode re-run drops the reserve and
yields cash flow 120. Both are outside the 0.01 tolerance. -/
theorem breakEven_replug_cex :
    ((computeMetrics cexNeg).breakEvenRent = JsNum.fin (-100) ∧
      (computeMetrics (withRent cexNeg (-100))).netCashFlow = 100 ∧
      ¬ |(computeMetrics (withRent cexNeg (-100))).netCashFlow| ≤ 1/100) ∧
    ((computeMetrics cexS8).breakEvenRent = JsNum.fin 120 ∧
      (computeMetrics (withRent cexS8 120)).netCashFlow = 120 ∧
      ¬ |(computeMetrics (withRent cexS8 120)).netCashFlow| ≤ 1/100) := by
  have h1 : (computeMetrics (withRent cexNeg (-100))).netCashFlow = 100 := by
    simp [computeMetrics, computeFromCore, netCashFlowOf, noiMonthlyOf, effectiveIncomeOf,
      effectiveRentOf, percentCostsOf, fixedCostsNoDebtOf, mortgagePIOf, loanOf, downPaymentOf,
      monthlyMortgagePayment, coreOf, computedRent, clamp, withRent, cexNeg, zeroInputs]
  have h2 : (computeMetrics (withRent cexS8 120)).netCashFlow = 120 := by
    simp [computeMetrics, computeFromCore, netCashFlowOf, noiMonthlyOf, effectiveIncomeOf,
      effectiveRentOf, percentCostsOf, fixedCostsNoDebtOf, mortgagePIOf, loanOf, downPaymentOf,
      monthlyMortgagePayment, coreOf, computedRent, clamp, withRent, cexS8, zeroInputs]
  refine ⟨⟨?_, h1, by rw [h1]; norm_num⟩, ⟨?_, h2, by rw [h2]; norm_num⟩⟩
  · simp [computeMetrics, computeFromCore, breakEvenRentOf, coeffOfCore, fixedCostsNoDebtOf,
      mortgagePIOf, loanOf, downPaymentOf, monthlyMortgagePayment, coreOf, computedRent,
      clamp, cexNeg, zeroInputs]
  · simp [computeMetrics, computeFromCore, breakEvenRentOf, coeffOfCore, fixedCostsNoDebtOf,
      mortgagePIOf, loanOf, downPaymentOf, monthlyMortgagePayment, coreOf, computedRent,
      clamp, cexS8, zeroInputs]

/-- Claim C6 (amended): for a Standard-mode input with nonzero coefficient and
nonnegative computed break-even rent, re-running the metric engine with the
monthly rent replaced by the break-even rent yields a net monthly cash flow of
exactly 0, in particular within the 0.01 tolerance. -/
theorem breakEven_replug (i : Inputs) (hm : i.section8Mode = false)
    (hc : coeffOf i ≠ 0) (hge : 0 ≤ beValOf i) :
    (computeMetrics (withRent i (beValOf i))).netCashFlow = 0 ∧
    |(computeMetrics (withRent i (beValOf i))).netCashFlow| ≤ 1/100 := by
  have hcore : coreOf (withRent i (beValOf i)) = { coreOf i with rent := beValOf i } := by
    simp [coreOf, withRent, computedRent, hm, max_eq_right hge]
  have hb : beValOf i * coeffOf i
      = fixedCostsNoDebtOf (coreOf i) + mortgagePIOf (coreOf i) - (coreOf i).other :=
    div_mul_cancel₀ _ hc
  have hkey : (computeMetrics (withRent i (beValOf i))).netCashFlow
      = beValOf i * coeffOf i + (coreOf i).other - fixedCostsNoDebtOf (coreOf i)
        - mortgagePIOf (coreOf i) := by
    rw [computeMetrics, hcore]
    simp only [computeFromCore, netCashFlowOf, noiMonthlyOf, effectiveIncomeOf, effectiveRentOf,
      percentCostsOf, fixedCostsNoDebtOf, mortgagePIOf, loanOf, downPaymentOf, coeffOf,
      coeffOfCore]
    ring
  have hzero : (computeMetrics (withRent i (beValOf i))).netCashFlow = 0 := by
    rw [hkey, hb]; ring
  rw [hzero]
  norm_num

/-- Witness for C6 at the rent 4000 scenario input: Standard mode, coefficient
77/100, break-even rent 0, and the re-run cash flow is exactly 0. -/
theorem breakEven_replug_witness :
    (computeMetrics (withRent cex3 (beValOf cex3))).netCashFlow = 0 :=
  (breakEven_replug cex3 rfl
    (by simp [coeffOf, coeffOfCore, coreOf, clamp, cex3, zeroInputs]; norm_num [max_def, min_def])
    (by simp [beValOf, fixedCostsNoDebtOf, mortgagePIOf, loanOf, downPaymentOf,
      monthlyMortgagePayment, coreOf, computedRent, clamp, cex3, zeroInputs])).1

/-- Counterexample to C8 as stated: with tenant portion -5 and HAP 10 the
Section 8 run uses rent max(0,-5) + max(0,10) = 10, while the Standard run
with monthly rent -5 + 10 uses rent 5, so the derived metrics differ. -/
theorem mode_equiv_cex :
    (computeMetrics cex8).grossIncome = 10 ∧
    (computeMetrics (toStandard cex8)).grossIncome = 5 ∧
    (computeMetrics cex8).grossIncome ≠ (computeMetrics (toStandard cex8)).grossIncome := by
  have h1 : (computeMetrics cex8).grossIncome = 10 := by
    simp [computeMetrics, computeFromCore, grossIncomeOf, coreOf, computedRent, cex8, zeroInputs]
  have h2 : (computeMetrics (toStandard cex8)).grossIncome = 5 := by
    simp [computeMetrics, computeFromCore, grossIncomeOf, coreOf, computedRent, toStandard,
      cex8, zeroInputs]
    norm_num [max_def]
  exact ⟨h1, h2, by rw [h1, h2]; norm_num⟩

/-- Claim C8 (amended): for a Section 8 input with nonnegative tenant portion
and HAP and inspection reserve 0, the run produces metrics (and verdict)
identical to the Standard-mode run with monthly rent equal to the sum of the
tenant portion and the HAP, all other inputs unchanged. -/
theorem mode_equiv_nonneg (i : Inputs) (hm : i.section8Mode = true)
    (hres : i.inspectionReserveMonthly = 0)
    (ht : 0 ≤ i.tenantPortionMonthly) (hh : 0 ≤ i.hapMonthly) :
    computeMetrics i = computeMetrics (toStandard i) := by
  unfold computeMetrics
  congr 1
  simp [coreOf, toStandard, computedRent, hm, hres, max_eq_right ht, max_eq_right hh,
    max_eq_right (add_nonneg ht hh)]

/-- Witness for C8 at the spec scenario: tenant portion 800, HAP 3200,
reserve 0 matches Standard mode with rent 4000. -/
theorem mode_equiv_nonneg_witness : computeMetrics w8 = computeMetrics (toStandard w8) :=
  mode_equiv_nonneg w8 rfl rfl (by norm_num [w8, zeroInputs]) (by norm_num [w8, zeroInputs])

/-- Claim C9: the metric engine depends on the five percentage inputs only
through their clamped values (clamping happens before any arithmetic), the
clamped values are used as fractions inside the documented ranges, a down
payment input of 150 is used as the fraction 1 (clamped to 100), and a
vacancy input of -10 is used as the fraction 0. -/
theorem clamp_before_arithmetic :
    (∀ i : Inputs, computeMetrics i = computeMetrics (clampPercentInputs i)) ∧
    (∀ i : Inputs,
      (coreOf i).down = clamp i.downPct 0 100 / 100 ∧
      (coreOf i).vacancy = clamp i.vacancyPct 0 80 / 100 ∧
      (coreOf i).repairs = clamp i.repairsPct 0 80 / 100 ∧
      (coreOf i).capex = clamp i.capexPct 0 80 / 100 ∧
      (coreOf i).mgmt = clamp i.mgmtPct 0 30 / 100 ∧
      0 ≤ (coreOf i).down ∧ (coreOf i).down ≤ 1 ∧
      0 ≤ (coreOf i).vacancy ∧ (coreOf i).vacancy ≤ 80/100 ∧
      0 ≤ (coreOf i).repairs ∧ (coreOf i).repairs ≤ 80/100 ∧
      0 ≤ (coreOf i).capex ∧ (coreOf i).capex ≤ 80/100 ∧
      0 ≤ (coreOf i).mgmt ∧ (coreOf i).mgmt ≤ 30/100) ∧
    (∀ i : Inputs, (coreOf { i with downPct := 150 }).down = 1) ∧
    (∀ i : Inputs, (coreOf { i with vacancyPct := -10 }).vacancy = 0) := by
  have h100 : ∀ x : ℚ, clamp (clamp x 0 100) 0 100 = clamp x 0 100 :=
    fun x => clamp_clamp x 0 100 (by norm_num)
  have h80 : ∀ x : ℚ, clamp (clamp x 0 80) 0 80 = clamp x 0 80 :=
    fun x => clamp_clamp x 0 80 (by norm_num)
  have h30 : ∀ x : ℚ, clamp (clamp x 0 30) 0 30 = clamp x 0 30 :=
    fun x => clamp_clamp x 0 30 (by norm_num)
  refine ⟨fun i => ?_, fun i => ?_, fun i => ?_, fun i => ?_⟩
  · unfold computeMetrics
    congr 1
    simp [coreOf, clampPercentInputs, computedRent, h100, h80, h30]
  · have d100 := clamp_mem i.downPct 100 (by norm_num)
    have v80 := clamp_mem i.vacancyPct 80 (by norm_num)
    have r80 := clamp_mem i.repairsPct 80 (by norm_num)
    have c80 := clamp_mem i.capexPct 80 (by norm_num)
    have m30 := clamp_mem i.mgmtPct 30 (by norm_num)
    refine ⟨rfl, rfl, rfl, rfl, rfl, ?_, ?_, ?_, ?_, ?_, ?_, ?_, ?_, ?_, ?_⟩ <;>
      simp only [coreOf] <;> linarith [d100.1, d100.2, v80.1, v80.2, r80.1, r80.2,
        c80.1, c80.2, m30.1, m30.2]
  · simp [coreOf, clamp]
    norm_num [max_def, min_def]
  · simp [coreOf, clamp]

/-- Claim C10: in Standard mode the metrics and verdict do not depend on the
tenant portion, HAP or inspection reserve inputs; in Section 8 mode they do
not depend on the standard monthly rent input. -/
theorem mode_noninterference (i : Inputs) (t hap res m : ℚ) :
    (i.section8Mode = false →
      computeMetrics { i with tenantPortionMonthly := t, hapMonthly := hap, inspectionReserveMonthly := res } = computeMetrics i) ∧
    (i.section8Mode = true →
      computeMetrics { i with monthlyRent := m } = computeMetrics i) := by
  constructor
  · intro hm
    unfold computeMetrics
    congr 1
    simp [coreOf, computedRent, hm]
  · intro hm
    unfold computeMetrics
    congr 1
    simp [coreOf, computedRent, hm]

/-- Witness for C10: changing the Section 8 fields of the all-zero Standard
input does not change the output. -/
theorem mode_noninterference_witness :
    computeMetrics { zeroInputs with tenantPortionMonthly := 42, hapMonthly := 7, inspectionReserveMonthly := 3 } = computeMetrics zeroInputs :=
  (mode_noninterference zeroInputs 42 7 3 0).1 rfl
